import Mathlib

/-!
Verification of the client-side todo application
(src/client/components/TodoList.tsx and src/client/components/CreateTodoForm.tsx).

The components are shallowly embedded: each event handler becomes a pure
function from its inputs (current client state, event payload, confirmation
result) to the requests it issues and the new client state.  A task's
`status` field is modelled as `Option String` because the source reads it
through optional chaining (`todo?.status`), so an undefined status is a
reachable value at the comparison sites.
-/

namespace TodoApp

/-- A task as rendered by the client.  `status` is optional because the
source accesses it as `todo?.status`. -/
structure Todo where
  id : String
  body : String
  status : Option String
  deriving DecidableEq, Repr

/-- Embedding of `filteredTodos` (TodoList.tsx lines 77-82):
`todos.filter(todo => filterStatus === 'all' ? true : todo?.status === filterStatus)`.
An undefined status compares unequal to any string, as in JavaScript. -/
def filteredTodos (todos : List Todo) (filterStatus : String) : List Todo :=
  todos.filter (fun todo =>
    if filterStatus = "all" then true
    else decide (todo.status = some filterStatus))

/-- Embedding of the new-status computation in `handleClickToUpdateStatus`
(TodoList.tsx line 99): `currentStatus === 'pending' ? 'completed' : 'pending'`.
In JavaScript an undefined `currentStatus` compares unequal to `'pending'`. -/
def toggleStatus (currentStatus : Option String) : String :=
  if currentStatus = some "pending" then "completed" else "pending"

/-- The payload of an `api.todoStatus.update` mutation. -/
structure UpdateStatusRequest where
  todoId : String
  status : String
  deriving DecidableEq, Repr

/-- Embedding of `handleClickToUpdateStatus` (TodoList.tsx lines 98-104):
computes the opposite status and issues the update request. -/
def handleClickToUpdateStatus (id : String) (currentStatus : Option String) :
    UpdateStatusRequest :=
  { todoId := id, status := toggleStatus currentStatus }

/-- The payload of an `api.todo.delete` mutation. -/
structure DeleteRequest where
  id : String
  deriving DecidableEq, Repr

/-- Embedding of `handleDeleteItem` (TodoList.tsx lines 113-119): the result
of `confirm('Delete this todo?')` is passed in as `confirmResult`; the delete
request is issued only when the user confirms. -/
def handleDeleteItem (id : String) (confirmResult : Bool) : List DeleteRequest :=
  if confirmResult then [{ id := id }] else []

/-- Applying a batch of delete requests to an arbitrary gateway collection,
for an arbitrary gateway delete semantics `g`. -/
def applyRequests (g : List Todo → DeleteRequest → List Todo)
    (collection : List Todo) (reqs : List DeleteRequest) : List Todo :=
  reqs.foldl g collection

/-- The payload of an `api.todo.create` mutation. -/
structure CreateRequest where
  body : String
  deriving DecidableEq, Repr

/-- The outcome of a keydown event on the input: whether the native default
action was prevented, the create requests issued, and the new pending-input
text after the handler returns. -/
structure KeyDownResult where
  preventedDefault : Bool
  requests : List CreateRequest
  todoBody : String
  deriving DecidableEq, Repr

/-- Embedding of `handleKeyDown` (CreateTodoForm.tsx lines 39-47): on the
Enter key it prevents the default action, issues `createTodo(\x7b body: todoBody \x7d)`
and clears the input with `setTodoBody('')`; any other key does nothing. -/
def handleKeyDown (key : String) (todoBody : String) : KeyDownResult :=
  if key = "Enter" then
    { preventedDefault := true, requests := [{ body := todoBody }], todoBody := "" }
  else
    { preventedDefault := false, requests := [], todoBody := todoBody }

/-- The outcome of a click on the Add button: the create requests issued and
the new pending-input text. -/
structure ClickResult where
  requests : List CreateRequest
  todoBody : String
  deriving DecidableEq, Repr

/-- Embedding of the Add button's onClick (CreateTodoForm.tsx lines 72-77):
issues `createTodo(\x7b body: todoBody \x7d)` and clears the input. -/
def handleAddClick (todoBody : String) : ClickResult :=
  { requests := [{ body := todoBody }], todoBody := "" }

/-- Embedding of the query destructuring (TodoList.tsx line 72):
`const \x7b data: todos = [] \x7d = api.todo.getAll.useQuery(...)` — when the query
has produced no data (failure or not yet returned), the rendered collection
defaults to the empty list. -/
def renderedTodos (fetchedData : Option (List Todo)) : List Todo :=
  fetchedData.getD []

/-- The outcome of a mutation request as observed by the client. -/
inductive MutationOutcome
  | success
  | failure
  deriving DecidableEq, Repr

/-- Which callbacks a `useMutation` call registers: whether a refetch of the
task collection is triggered on success and on error. -/
structure MutationHandlers where
  refetchOnSuccess : Bool
  refetchOnError : Bool
  deriving DecidableEq, Repr

/-- Embedding of `api.todoStatus.update.useMutation` (TodoList.tsx lines
92-96): only an `onSuccess` callback is registered, and it refetches. -/
def updateTodoStatusHandlers : MutationHandlers :=
  { refetchOnSuccess := true, refetchOnError := false }

/-- Embedding of `api.todo.delete.useMutation` (TodoList.tsx lines 107-111):
only an `onSuccess` callback is registered, and it refetches. -/
def deleteTodoHandlers : MutationHandlers :=
  { refetchOnSuccess := true, refetchOnError := false }

/-- Embedding of `api.todo.create.useMutation` (CreateTodoForm.tsx lines
31-36): only an `onSuccess` callback is registered, and it refetches. -/
def createTodoHandlers : MutationHandlers :=
  { refetchOnSuccess := true, refetchOnError := false }

/-- Whether a refetch is triggered for a given mutation outcome: the
`onSuccess` callback runs exactly on success and the `onError` callback
exactly on failure. -/
def refetchTriggered (h : MutationHandlers) : MutationOutcome → Bool
  | .success => h.refetchOnSuccess
  | .failure => h.refetchOnError

/-- The client's rendered snapshot after a mutation settles: replaced by the
gateway's current collection when a refetch was triggered, otherwise left
untouched (the handlers perform no local patching). -/
def clientStateAfter (h : MutationHandlers) (o : MutationOutcome)
    (snapshot gatewayState : List Todo) : List Todo :=
  if refetchTriggered h o then gatewayState else snapshot

/-- Embedding of the Add button's `disabled` attribute
(CreateTodoForm.tsx line 71): `disabled=\x7bisCreatingTodo\x7d`. -/
def addButtonDisabled (isCreatingTodo : Bool) : Bool :=
  isCreatingTodo

/-- The create requests a click on the Add button can issue, given the DOM
semantics that a disabled button fires no click handler. -/
def clickPathRequests (isCreatingTodo : Bool) (todoBody : String) :
    List CreateRequest :=
  if addButtonDisabled isCreatingTodo then []
  else (handleAddClick todoBody).requests

/-- Embedding of `e.stopPropagation()` in the XMarkIcon's onClick
(TodoList.tsx line 189): the delete icon's handler stops the click event
from bubbling to the enclosing row. -/
def xMarkIconStopsPropagation : Bool := true

/-- The requests issued by one click, by kind. -/
structure RowClickRequests where
  updateRequests : List UpdateStatusRequest
  deleteRequests : List DeleteRequest
  deriving DecidableEq, Repr

/-- Embedding of a click on a row's delete icon (TodoList.tsx lines 185-192
inside the `li` of lines 153-158): the icon's handler runs
(`e.stopPropagation(); handleDeleteItem(todo.id)`), and the row's own
onClick (`handleClickToUpdateStatus(todo?.id, todo?.status)`) runs only if
the event still propagates. -/
def clickDeleteIcon (todo : Todo) (confirmResult : Bool) : RowClickRequests :=
  let deletes := handleDeleteItem todo.id confirmResult
  if xMarkIconStopsPropagation then
    { updateRequests := [], deleteRequests := deletes }
  else
    { updateRequests := [handleClickToUpdateStatus todo.id todo.status],
      deleteRequests := deletes }

end TodoApp

namespace TodoApp

/-- C1: for a filter in {pending, completed}, `filteredTodos` returns exactly
the tasks whose status equals the filter (as a sublist, so in original order);
for the filter "all" it returns the whole list unchanged; and no task with a
missing status survives a non-"all" filter. -/
theorem filteredTodos_correct (tasks : List Todo) (f : String)
    (hf : f = "pending" ∨ f = "completed") :
    filteredTodos tasks f = tasks.filter (fun t => decide (t.status = some f))
    ∧ filteredTodos tasks "all" = tasks
    ∧ ∀ t ∈ filteredTodos tasks f, t.status ≠ none := by
  have hne : ¬ (f = "all") := by
    rcases hf with h | h <;> subst h <;> decide
  refine ⟨?_, ?_, ?_⟩
  · unfold filteredTodos
    simp [hne]
  · unfold filteredTodos
    simp
  · intro t ht hnone
    unfold filteredTodos at ht
    rw [List.mem_filter] at ht
    rcases ht with ⟨_, hpred⟩
    rw [if_neg hne] at hpred
    rw [hnone] at hpred
    simp at hpred

/-- Witness for C1 at a concrete three-task list and filter "pending". -/
theorem filteredTodos_correct_witness :
    filteredTodos
        [⟨"1", "A", some "pending"⟩, ⟨"2", "B", some "completed"⟩, ⟨"3", "C", none⟩]
        "pending"
      = ([⟨"1", "A", some "pending"⟩, ⟨"2", "B", some "completed"⟩,
          ⟨"3", "C", none⟩] : List Todo).filter
          (fun t => decide (t.status = some "pending"))
    ∧ filteredTodos
        [⟨"1", "A", some "pending"⟩, ⟨"2", "B", some "completed"⟩, ⟨"3", "C", none⟩]
        "all"
      = [⟨"1", "A", some "pending"⟩, ⟨"2", "B", some "completed"⟩, ⟨"3", "C", none⟩]
    ∧ ∀ t ∈ filteredTodos
        [⟨"1", "A", some "pending"⟩, ⟨"2", "B", some "completed"⟩, ⟨"3", "C", none⟩]
        "pending", t.status ≠ none :=
  filteredTodos_correct _ "pending" (Or.inl rfl)

/-- C2: toggling a status in {pending, completed} twice returns the original
status. -/
theorem toggleStatus_roundtrip (s : String)
    (hs : s = "pending" ∨ s = "completed") :
    toggleStatus (some (toggleStatus (some s))) = s := by
  rcases hs with h | h <;> subst h <;> decide

/-- Witness for C2 at the concrete status "pending". -/
theorem toggleStatus_roundtrip_witness :
    toggleStatus (some (toggleStatus (some "pending"))) = "pending" :=
  toggleStatus_roundtrip "pending" (Or.inl rfl)

/-- C3: when the user declines the confirmation, `handleDeleteItem` issues no
delete request, so the gateway collection is unchanged no matter what the
gateway's delete semantics are. -/
theorem handleDeleteItem_decline_no_effect (id : String)
    (g : List Todo → DeleteRequest → List Todo) (collection : List Todo) :
    handleDeleteItem id false = []
    ∧ applyRequests g collection (handleDeleteItem id false) = collection := by
  exact ⟨rfl, rfl⟩

/-- C10: any current status other than exactly `some "pending"` — including a
missing status — is toggled to "pending"; only `some "pending"` yields
"completed".  In particular a task with an undefined status is toggled to
"pending" rather than rejected. -/
theorem toggleStatus_nonpending (id : String) (s : Option String)
    (h : s ≠ some "pending") :
    (handleClickToUpdateStatus id s).status = "pending"
    ∧ (handleClickToUpdateStatus id (some "pending")).status = "completed" := by
  constructor
  · unfold handleClickToUpdateStatus toggleStatus
    simp [h]
  · rfl

/-- Witness for C10 at the missing status `none`. -/
theorem toggleStatus_nonpending_witness :
    (handleClickToUpdateStatus "1" none).status = "pending"
    ∧ (handleClickToUpdateStatus "1" (some "pending")).status = "completed" :=
  toggleStatus_nonpending "1" none (by decide)

/-- C4: pressing Enter in the input with text `t` issues exactly the same
create requests as clicking the Add button with the same text, namely the
single request with body `t`. -/
theorem enter_click_same_request (t : String) :
    (handleKeyDown "Enter" t).requests = (handleAddClick t).requests
    ∧ (handleKeyDown "Enter" t).requests = [{ body := t }] := by
  exact ⟨rfl, rfl⟩

/-- C5: both submission paths clear the pending-input to the empty string;
the clearing is unconditional, so it does not depend on the create request's
eventual outcome. -/
theorem submit_clears_input (t : String) :
    (handleKeyDown "Enter" t).todoBody = ""
    ∧ (handleAddClick t).todoBody = "" := by
  exact ⟨rfl, rfl⟩

/-- C6: when no fetched data is present the view renders the empty list, and
when data is present it renders exactly that data. -/
theorem renderedTodos_default_empty :
    renderedTodos none = []
    ∧ ∀ l : List Todo, renderedTodos (some l) = l := by
  exact ⟨rfl, fun _ => rfl⟩

/-- C7: for each of the three mutations, a refetch is triggered exactly when
the mutation's success is observed, and on failure the client's rendered
snapshot is unchanged. -/
theorem refetch_iff_success (o : MutationOutcome)
    (snapshot gatewayState : List Todo) :
    (refetchTriggered updateTodoStatusHandlers o = true ↔ o = .success)
    ∧ (refetchTriggered deleteTodoHandlers o = true ↔ o = .success)
    ∧ (refetchTriggered createTodoHandlers o = true ↔ o = .success)
    ∧ clientStateAfter updateTodoStatusHandlers .failure snapshot gatewayState
        = snapshot
    ∧ clientStateAfter deleteTodoHandlers .failure snapshot gatewayState
        = snapshot
    ∧ clientStateAfter createTodoHandlers .failure snapshot gatewayState
        = snapshot := by
  cases o <;>
    simp [refetchTriggered, clientStateAfter, updateTodoStatusHandlers,
      deleteTodoHandlers, createTodoHandlers]

/-- C8: while a creation request is outstanding the Add button is disabled,
and a click on it issues no create request. -/
theorem add_disabled_while_creating (t : String) :
    addButtonDisabled true = true
    ∧ clickPathRequests true t = [] := by
  exact ⟨rfl, rfl⟩

/-- C9: activating a row's delete icon never issues an update-status request
for that row; it issues the delete request only after confirmation (none when
the user declines), and at most one delete request in any case. -/
theorem delete_click_no_toggle (todo : Todo) (confirmResult : Bool) :
    (clickDeleteIcon todo confirmResult).updateRequests = []
    ∧ (clickDeleteIcon todo confirmResult).deleteRequests
        = handleDeleteItem todo.id confirmResult
    ∧ (clickDeleteIcon todo false).deleteRequests = []
    ∧ (clickDeleteIcon todo confirmResult).deleteRequests.length ≤ 1 := by
  cases confirmResult <;>
    simp [clickDeleteIcon, handleDeleteItem, xMarkIconStopsPropagation]

end TodoApp
